import Mathlib

/-!
# gep-server: registration intake workflow — verification development

Shallow embedding of the registration intake service:
* `controllers/register_controller.py` — `RegisterSchema` / `ExtraModel`
  (pydantic models with the `normalize_extra` root validator), `save_user`,
  `process_registration`;
* `models/user.py` — the `users` table row;
* `routes/register.py` — the `/register` route;
* `utils/email_service.py` — `send_email_async` message construction.

Python dictionaries are embedded with explicit key-presence: a field of type
`Option (Option String)` is `none` when the key is absent, `some none` when the
key is present with value `None`, and `some (some s)` when present with string
value `s`.  Payloads are modelled over the keys the schema understands
(`name`, `email`, `mobile`, `qualification`, `experience`, `extra`); pydantic
v1 silently drops unknown keys at validation, so they never reach the workflow.
Timestamps are abstracted as natural numbers.
-/

namespace GepServer

/-- Python truthiness of an optional string: `None` and `""` are falsy. -/
def truthy (o : Option String) : Bool :=
  match o with
  | some s => !s.isEmpty
  | none => false

/-- Python `a or b` on two optional strings (`None`/empty-string are falsy). -/
def pyOr (a b : Option String) : Option String :=
  if truthy a then a else b

/-- Python `a or d` where `d` is a string literal (as in `mobile or '-'`). -/
def pyOrD (a : Option String) (d : String) : String :=
  match a with
  | some s => if s.isEmpty then d else s
  | none => d

/-- The nested `extra` dictionary of a raw payload, over the keys `ExtraModel`
declares (`mobile`, `qualification`, `experience`) plus `city`, a key the
controller attempts to read back from the validated payload
(`register_controller.py` line 106) but which `ExtraModel` does not declare.
Each field is `none` when the key is absent, `some none` when present as
`None`, and `some (some s)` when present with a string value. -/
structure ExtraDict where
  mobile : Option (Option String)
  qualification : Option (Option String)
  experience : Option (Option String)
  city : Option (Option String)
  deriving Repr, DecidableEq

/-- The empty dictionary `\x7b\x7d`. -/
def ExtraDict.empty : ExtraDict := ⟨none, none, none, none⟩

/-- Python truthiness of the `extra` dict: non-empty (some key present). -/
def ExtraDict.truthyDict (d : ExtraDict) : Bool :=
  d.mobile.isSome || d.qualification.isSome || d.experience.isSome || d.city.isSome

/-- A raw submission payload: the keyword arguments reaching
`RegisterSchema(**payload)`.  Key-presence is explicit (see module comment). -/
structure RawValues where
  name : Option (Option String)
  email : Option (Option String)
  mobile : Option (Option String)
  qualification : Option (Option String)
  experience : Option (Option String)
  extra : Option (Option ExtraDict)
  deriving Repr, DecidableEq

/-- One `setdefault` step of `RegisterSchema.normalize_extra`
(`register_controller.py` lines 36–44): for key `k`, when the top-level value
is present and not `None` (`if k in values and values.get(k) is not None`),
`extra.setdefault(k, values.get(k))` fills the nested slot only if the nested
key is absent. -/
def setdefaultStep (slot top : Option (Option String)) : Option (Option String) :=
  match top with
  | some (some t) =>
    match slot with
    | none => some (some t)
    | s => s
  | _ => slot

/-- `values.get("extra") or \x7b\x7d`: the nested dict a payload starts the
merge from — the empty dict when the `extra` key is absent, `None`, or an
empty (falsy) dict (an empty `ExtraDict` and `\x7b\x7d` coincide here). -/
def rawExtraDict (v : RawValues) : ExtraDict :=
  match v.extra with
  | some (some d) => d
  | _ => ExtraDict.empty

/-- `RegisterSchema.normalize_extra` (`register_controller.py` lines 36–44):
`extra = values.get("extra") or \x7b\x7d`; merge each legacy top-level field by
`setdefault` (keys not in the loop, such as `city`, stay untouched in the
dict); assign `values["extra"] = extra` only when the merged dict is truthy
(`if extra:`). -/
def normalize_extra (v : RawValues) : RawValues :=
  let extra0 := rawExtraDict v
  let merged : ExtraDict :=
    { mobile := setdefaultStep extra0.mobile v.mobile
      qualification := setdefaultStep extra0.qualification v.qualification
      experience := setdefaultStep extra0.experience v.experience
      city := extra0.city }
  if merged.truthyDict then { v with extra := some (some merged) } else v

/-- The parsed `ExtraModel` (`register_controller.py` lines 18–21): pydantic
model with optional `mobile` (10–20 chars when present), `qualification`,
`experience`.  `ExtraModel.dict()` always carries all three keys, so its
embedding uses plain `Option String` values. -/
structure ExtraOut where
  mobile : Option String
  qualification : Option String
  experience : Option String
  deriving Repr, DecidableEq

/-- The validated, normalized payload: `RegisterSchema(**payload).dict()`.
pydantic v1 `.dict()` emits every declared field, so the legacy top-level
`mobile` / `qualification` / `experience` keys are always present in the
normalized dict (value `None` when not supplied). -/
structure Validated where
  name : String
  email : String
  extra : Option ExtraOut
  mobile : Option String
  qualification : Option String
  experience : Option String
  deriving Repr, DecidableEq

/-- Validation failure; pydantic collects every field violation, but no claim
depends on the error list, so a single representative violation is kept. -/
inductive ValErr where
  | nameErr
  | emailErr
  | mobileLen
  | extraMobileLen
  deriving Repr, DecidableEq

/-- Split a character list at its first `@`, when one occurs. -/
def emailParts (l : List Char) : Option (List Char × List Char) :=
  match l with
  | [] => none
  | c :: cs =>
    if c = '@' then some ([], cs)
    else
      match emailParts cs with
      | some (loc, dom) => some (c :: loc, dom)
      | none => none

/-- Modelled from the spec: pydantic's `EmailStr` validator is third-party
library code not contained in this repository; the spec only requires
"standard email address syntax".  Abstracted to a syntactic check: exactly one
`@`, a non-empty local part, and a domain containing a dot at neither end.
No claim depends on the internals of this check. -/
def isEmail (s : String) : Bool :=
  match emailParts s.data with
  | some (loc, dom) =>
    !loc.isEmpty && !(dom.contains '@') && dom.contains '.'
      && !(dom.headD '.' = '.') && !(dom.getLastD '.' = '.')
  | none => false

/-- Dictionary value present and non-`None`. -/
def flat (o : Option (Option String)) : Option String :=
  match o with
  | some (some s) => some s
  | _ => none

/-- Length constraint of the `mobile` fields: `min_length=10, max_length=20`,
applied only when the value is present and not `None`. -/
def mobileOk (o : Option String) : Bool :=
  match o with
  | some s => decide (10 ≤ s.length) && decide (s.length ≤ 20)
  | none => true

/-- `RegisterSchema(**payload).dict()` (`register_controller.py` lines 24–44):
run `normalize_extra` (a `pre` root validator), then parse each declared
field: `name` required with 1–200 chars, `email` required and syntactically
valid, nested `extra` parsed by `ExtraModel` (with the 10–20 char bound on its
`mobile`), and the legacy top-level fields parsed with the same bounds. -/
def RegisterSchema.validate (raw : RawValues) : Except ValErr Validated :=
  let w := normalize_extra raw
  match w.name with
  | some (some n) =>
    if 1 ≤ n.length ∧ n.length ≤ 200 then
      match w.email with
      | some (some e) =>
        if isEmail e then
          let extraOut : Option ExtraOut :=
            match w.extra with
            | some (some d) =>
              some { mobile := flat d.mobile
                     qualification := flat d.qualification
                     experience := flat d.experience }
            | _ => none
          let nestedMobileOk :=
            match extraOut with
            | some eo => mobileOk eo.mobile
            | none => true
          if nestedMobileOk then
            if mobileOk (flat w.mobile) then
              .ok { name := n
                    email := e
                    extra := extraOut
                    mobile := flat w.mobile
                    qualification := flat w.qualification
                    experience := flat w.experience }
            else .error .mobileLen
          else .error .extraMobileLen
        else .error .emailErr
      | _ => .error .emailErr
    else .error .nameErr
  | _ => .error .nameErr

/-- A persisted row of the `users` table (`models/user.py` lines 8–23):
`id` primary key, `name`, unique `email`, nullable `mobile` /
`qualification` / `experience`, nullable `extra` text column, `created_at`
timestamp (abstracted as `Nat`). -/
structure UserRec where
  id : Nat
  name : String
  email : String
  mobile : Option String
  qualification : Option String
  experience : Option String
  extra : Option String
  created_at : Nat
  deriving Repr, DecidableEq

/-- The store's state: the `users` table in insertion order plus the next
auto-increment primary key. -/
structure DB where
  users : List UserRec
  nextId : Nat
  deriving Repr, DecidableEq

/-- A storage fault raised inside `save_user`: either the email uniqueness
constraint of `models/user.py` line 13 (`IntegrityError`), or any other
storage failure. -/
inductive StorageError where
  | integrityError
  | storageFault
  deriving Repr, DecidableEq

/-- Environment of one `save_user` call: `concurrentInsert` is a row another
session commits between this session's `SELECT` and its `COMMIT` (the race of
the concurrency contract), and `commitFault` injects an arbitrary storage
failure at commit time. -/
structure StoreEnv where
  concurrentInsert : Option UserRec
  commitFault : Bool
  deriving Repr, DecidableEq

/-- The benign environment: no concurrent writer, no storage fault. -/
def StoreEnv.ok : StoreEnv := ⟨none, false⟩

/-- The table as other sessions leave it: this session's own (rolled-back or
committed) writes excluded, the concurrent writer's committed row included. -/
def applyConcurrent (env : StoreEnv) (db : DB) : DB :=
  { users := db.users ++ env.concurrentInsert.toList
    nextId := db.nextId + env.concurrentInsert.toList.length }

/-- One JSON string literal, as `json.dumps` renders it: quote, backslash and
the common control characters escaped.  (Other control characters take a
`\u`-form not needed by any input in this development.) -/
def jsonChar (c : Char) : String :=
  if c = '"' then "\\\""
  else if c = '\\' then "\\\\"
  else if c = '\n' then "\\n"
  else if c = '\t' then "\\t"
  else if c = '\r' then "\\r"
  else String.mk [c]

/-- `json.dumps` of a string value. -/
def jsonStr (s : String) : String :=
  "\"" ++ String.join (s.data.map jsonChar) ++ "\""

/-- `json.dumps` of an optional string (Python `None` prints as `null`). -/
def jsonOptStr (o : Option String) : String :=
  match o with
  | some s => jsonStr s
  | none => "null"

/-- `json.dumps(extra, ensure_ascii=False)` of the validated `extra` dict
(`ExtraModel.dict()` — keys in declaration order). -/
def jsonDumpsExtra (e : ExtraOut) : String :=
  "\x7b\"mobile\": " ++ jsonOptStr e.mobile ++
  ", \"qualification\": " ++ jsonOptStr e.qualification ++
  ", \"experience\": " ++ jsonOptStr e.experience ++ "\x7d"

/-- The `extra_str` computation of `save_user` (`register_controller.py`
lines 64–69): `None` when the extra dict is falsy, otherwise its JSON dump.
(`ExtraModel.dict()` always holds three keys, hence is truthy; serialization
of a string/`None` dict cannot fail, so the `str(extra)` fallback of the
`except` branch is unreachable in the modelled payload space.)  The computed
value is never stored: the `User(...)` constructor call at lines 72–78 omits
the `extra` column. -/
def extraStrOf (p : Validated) : Option String :=
  match p.extra with
  | some e => some (jsonDumpsExtra e)
  | none => none

deriving instance DecidableEq for Except

/-- Outcome of one `save_user` call: the returned value or raised error, the
table as subsequent reads see it, and whether the scoped session was released
(`finally: session.close()`). -/
structure SaveOutcome where
  result : Except StorageError (UserRec × Bool)
  db : DB
  sessionClosed : Bool
  deriving Repr, DecidableEq

/-- `save_user` (`register_controller.py` lines 48–90): look up the payload's
email; if a row exists return `(existing, False)`; otherwise flatten the
nested `extra` fields into dedicated columns and insert a new row.  The
`extra` column is left at its `NULL` default — `extra_str` is computed but
not passed to the constructor.  Any exception triggers
`session.rollback(); raise`, and `finally: session.close()` runs on every
path.  A commit fault or a concurrent insert of the same email raises; the
bare `except Exception` re-raises rather than mapping `IntegrityError` to the
winner's row. -/
def save_user (env : StoreEnv) (db : DB) (now : Nat) (p : Validated) : SaveOutcome :=
  match db.users.find? (fun u => u.email == p.email) with
  | some u =>
    { result := .ok (u, false), db := applyConcurrent env db, sessionClosed := true }
  | none =>
    let e := p.extra.getD ⟨none, none, none⟩
    let _extra_str := extraStrOf p
    let user : UserRec :=
      { id := db.nextId
        name := p.name
        email := p.email
        mobile := e.mobile
        qualification := e.qualification
        experience := e.experience
        extra := none
        created_at := now }
    let db1 := applyConcurrent env db
    if env.commitFault then
      { result := .error .storageFault, db := db1, sessionClosed := true }
    else if db1.users.any (fun u => u.email == p.email) then
      { result := .error .integrityError, db := db1, sessionClosed := true }
    else
      { result := .ok (user, true)
        db := { users := db1.users ++ [user], nextId := db1.nextId + 1 }
        sessionClosed := true }

/-- `html.escape` on one character (quote-escaping enabled, the default):
`&`, `<`, `>`, `"` and the apostrophe (code point 39) map to their entities,
everything else is unchanged. -/
def escapeChar (c : Char) : String :=
  if c = '&' then "&amp;"
  else if c = '<' then "&lt;"
  else if c = '>' then "&gt;"
  else if c = '"' then "&quot;"
  else if c.toNat = 39 then "&#x27;"
  else String.mk [c]

/-- `html.escape(s)`: every character escaped independently. -/
def htmlEscape (s : String) : String :=
  String.mk (s.data.flatMap (fun c => (escapeChar c).data))

/-- Subject of the submitter confirmation (`register_controller.py` line 119). -/
def user_subject : String := "Welcome to the Global Education Partner Programme!"

/-- Subject of the admin alert (`register_controller.py` line 151). -/
def admin_subject : String := "New GEP Partner Registration – Please Contact the User"

/-- The controller's `esc` lambda (`register_controller.py` line 115):
`html.escape(s)` when the value is not `None`, else `"-"`. -/
def esc (s : Option String) : String :=
  match s with
  | some t => htmlEscape t
  | none => "-"

/-- `user_text` (`register_controller.py` lines 121–130): the plain-text
submitter confirmation; the name is substituted unescaped. -/
def user_text (name : String) : String :=
  "Dear " ++ name ++ ",\n\n" ++
  "Thank you for registering for the Global Education Partner (GEP) Programme with Global Minds India!\n" ++
  "Your registration has been received successfully.\n\n" ++
  "Our team will get in touch with you shortly to explain how the programme works, the benefits, and how you can begin your journey as a GEP Partner.\n\n" ++
  "If you have any questions, feel free to reach out.\n\n" ++
  "Warm regards,\n" ++
  "Global Minds India Team\n" ++
  "📞 +91 73534 46655\n" ++
  "📧 connect@globalmindsindia.com\n"

/-- Template text of `user_html` before the substituted name. -/
def uSeg0 : String := "\n    <html><body>\n      <p>Dear "

/-- Template text of `user_html` after the substituted name. -/
def uSeg1 : String :=
  ",</p>\n      <p>Thank you for registering for the <strong>Global Education Partner (GEP) Programme</strong> with <strong>Global Minds India</strong>!</p>\n      <p>Your registration has been received successfully.</p>\n      <p>Our team will get in touch with you shortly to explain how the programme works, the benefits, and how you can begin your journey as a GEP Partner.</p>\n      <p>If you have any immediate questions, feel free to reach out.</p>\n      <p>Warm regards,<br/>\n      Global Minds India Team<br/>\n      📞 +91 73534 46655<br/>\n      📧 <a href=\"mailto:connect@globalmindsindia.com\">connect@globalmindsindia.com</a></p>\n    </body></html>\n    "

/-- `user_html` (`register_controller.py` lines 132–146): the HTML submitter
confirmation body; the name is substituted through `esc`. -/
def user_html (name : String) : String :=
  uSeg0 ++ esc (some name) ++ uSeg1

/-- `admin_text` (`register_controller.py` lines 153–167): the plain-text
admin alert. -/
def admin_text (name : String) (mobile : Option String) (email : String) : String :=
  "Hello Team,\n\n" ++
  "A new user has registered for the Global Education Partner (GEP) Programme.\n\n" ++
  "User Details:\n" ++
  "Name: " ++ name ++ "\n" ++
  "Phone: " ++ pyOrD mobile "-" ++ "\n" ++
  "Email: " ++ email ++ "\n" ++
  "Action Required:\n" ++
  "👉 Please contact the user and provide full details about the programme.\n" ++
  "👉 Assist them with onboarding and next steps.\n\n" ++
  "Thank you,\n" ++
  "System Notification – Global Minds India\n"

/-- Template text of `admin_html` before the substituted name. -/
def aSeg0 : String :=
  "\n    <html><body>\n      <p>Hello Team,</p>\n      <p>A new user has registered for the <strong>Global Education Partner (GEP) Programme</strong>.</p>\n      <h4>User Details:</h4>\n      <table cellpadding=\"4\" cellspacing=\"0\" border=\"0\">\n        <tr><td><strong>Name:</strong></td><td>"

/-- Template text of `admin_html` between name and phone. -/
def aSeg1 : String :=
  "</td></tr>\n        <tr><td><strong>Phone:</strong></td><td>"

/-- Template text of `admin_html` between phone and the mailto href. -/
def aSeg2 : String :=
  "</td></tr>\n        <tr><td><strong>Email:</strong></td><td><a href=\"mailto:"

/-- Template text of `admin_html` between the two email substitutions. -/
def aSeg3 : String := "\">"

/-- Template text of `admin_html` between email and city. -/
def aSeg4 : String :=
  "</a></td></tr>\n        <tr><td><strong>City:</strong></td><td>"

/-- Template text of `admin_html` after the city. -/
def aSeg5 : String :=
  "</td></tr>\n      </table>\n      <h4>Action Required:</h4>\n      <ul>\n        <li>👉 Please contact the user and provide full details about the programme.</li>\n        <li>👉 Assist them with onboarding and next steps.</li>\n      </ul>\n      <p>Thank you,<br/>System Notification – Global Minds India</p>\n    </body></html>\n    "

/-- `admin_html` (`register_controller.py` lines 169–188): the HTML admin
alert body; name, phone, email (twice) and city substitute through `esc`. -/
def admin_html (name : String) (mobile : Option String) (email : String)
    (city : Option String) : String :=
  aSeg0 ++ esc (some name) ++
  aSeg1 ++ esc (some (pyOrD mobile "-")) ++
  aSeg2 ++ esc (some email) ++
  aSeg3 ++ esc (some email) ++
  aSeg4 ++ esc (some (pyOrD city "-")) ++
  aSeg5

/-- The Flask `app.config` entries the controller and the email service read;
`config.get` of a missing key yields `None`, hence `Option String`. -/
structure AppConfig where
  ADMIN_EMAIL : Option String
  FROM_EMAIL : Option String
  NO_REPLY_EMAIL : Option String
  MAIL_DEFAULT_SENDER : Option String
  deriving Repr, DecidableEq

/-- A constructed `flask_mail.Message` as `send_email_async` hands it to the
background send thread. -/
structure EmailMsg where
  subject : String
  recipients : List String
  sender : Option String
  replyTo : Option String
  body : Option String
  html : String
  deriving Repr, DecidableEq

/-- `send_email_async` (`utils/email_service.py` lines 37–84), modulo the
thread spawn: resolve the sender as the explicit argument, else
`MAIL_DEFAULT_SENDER`, else `FROM_EMAIL`, else `NO_REPLY_EMAIL`; set the
plain-text body only when truthy (`if text_body:`); set reply-to to the
explicit argument or else the configured `NO_REPLY_EMAIL`, only when that
resolves truthy. -/
def send_email_async (cfg : AppConfig) (subject : String) (recipients : List String)
    (html_body : String) (text_body : Option String)
    (sender reply_to : Option String) : EmailMsg :=
  let default_sender := pyOr cfg.MAIL_DEFAULT_SENDER (pyOr cfg.FROM_EMAIL cfg.NO_REPLY_EMAIL)
  let configured_reply_to := pyOr reply_to cfg.NO_REPLY_EMAIL
  { subject := subject
    recipients := recipients
    sender := pyOr sender default_sender
    replyTo := if truthy configured_reply_to then configured_reply_to else none
    body := if truthy text_body then text_body else none
    html := html_body }

/-- An exception escaping `process_registration`: the propagated pydantic
`ValidationError` or a storage fault re-raised by `save_user`. -/
inductive ProcErr where
  | validation (e : ValErr)
  | storage (e : StorageError)
  deriving Repr, DecidableEq

/-- The `user` dict of `process_registration`'s return value
(`register_controller.py` lines 209–219). -/
structure UserOut where
  id : Nat
  name : String
  email : String
  mobile : Option String
  qualification : Option String
  experience : Option String
  created_at : Nat
  deriving Repr, DecidableEq

/-- `process_registration`'s return value: the user dict and the
`created_new` flag. -/
structure RegResult where
  user : UserOut
  created_new : Bool
  deriving Repr, DecidableEq

/-- Observable outcome of one `process_registration` call: the returned value
(or escaping exception), the resulting table state, and the notification
messages successfully handed to the background sender. -/
structure ProcOut where
  resp : Except ProcErr RegResult
  db : DB
  emails : List EmailMsg
  deriving Repr, DecidableEq

/-- The body of `process_registration` after validation
(`register_controller.py` lines 98–220): `save_user`, compose the submitter
and admin notifications from the resulting record, enqueue both inside a
`try` whose `except` only logs, and return the record fields with
`created_new`.  `dfail.1` / `dfail.2` inject an exception from the first /
second `send_email_async` call (a dispatch-scheduling failure); Python skips
the second call when the first raises.  `city` is always `None`: the `User`
model has no `city` attribute and `ExtraModel.dict()` carries no `city` key. -/
def runWorkflow (cfg : AppConfig) (env : StoreEnv) (dfail : Bool × Bool)
    (db : DB) (now : Nat) (v : Validated) : ProcOut :=
  let o := save_user env db now v
  match o.result with
  | .error e => { resp := .error (.storage e), db := o.db, emails := [] }
  | .ok (user, created_new) =>
    let name := user.name
    let email := user.email
    let vextra := v.extra.getD ⟨none, none, none⟩
    let mobile := pyOr user.mobile vextra.mobile
    let _qualification := pyOr user.qualification vextra.qualification
    let _experience := pyOr user.experience vextra.experience
    let city : Option String := none
    let created_at := user.created_at
    let admin_email := pyOrD cfg.ADMIN_EMAIL "connect@globalmindsindia.com"
    let sender_user := pyOr cfg.FROM_EMAIL cfg.MAIL_DEFAULT_SENDER
    let sender_admin := pyOr cfg.NO_REPLY_EMAIL (some "noreply@globalmindsindia.com")
    let userMsg := send_email_async cfg user_subject [email] (user_html name)
      (some (user_text name)) sender_user none
    let adminMsg := send_email_async cfg admin_subject [admin_email]
      (admin_html name mobile email city) (some (admin_text name mobile email))
      sender_admin sender_admin
    let emails :=
      if dfail.1 then [] else if dfail.2 then [userMsg] else [userMsg, adminMsg]
    { resp := .ok
        { user :=
            { id := user.id
              name := user.name
              email := user.email
              mobile := user.mobile
              qualification := user.qualification
              experience := user.experience
              created_at := created_at }
          created_new := created_new }
      db := o.db
      emails := emails }

/-- `process_registration` (`register_controller.py` lines 94–220):
`RegisterSchema(**payload).dict()`, then the post-validation workflow; a
`ValidationError` propagates unchanged with no persistence and no
notification. -/
def process_registration (cfg : AppConfig) (env : StoreEnv) (dfail : Bool × Bool)
    (db : DB) (now : Nat) (raw : RawValues) : ProcOut :=
  match RegisterSchema.validate raw with
  | .error e => { resp := .error (.validation e), db := db, emails := [] }
  | .ok v => runWorkflow cfg env dfail db now v

/-- The HTTP response body of the `/register` route. -/
inductive RouteResp where
  | invalidJson
  | validationFailed (e : ValErr)
  | serverError
  | conflict
  | created (u : UserOut)
  deriving Repr, DecidableEq

/-- The `/register` route (`routes/register.py` lines 12–43): a `None` body
models unparseable JSON (400); a pydantic `ValidationError` maps to 422; any
other exception to 500; `created_new = False` to a 409 duplicate conflict;
success to 201 with the record's public fields. -/
def register (cfg : AppConfig) (env : StoreEnv) (dfail : Bool × Bool) (db : DB)
    (now : Nat) (body : Option RawValues) : (Nat × RouteResp) × DB × List EmailMsg :=
  match body with
  | none => ((400, .invalidJson), db, [])
  | some raw =>
    let o := process_registration cfg env dfail db now raw
    match o.resp with
    | .error (.validation e) => ((422, .validationFailed e), o.db, o.emails)
    | .error (.storage _) => ((500, .serverError), o.db, o.emails)
    | .ok r =>
      if r.created_new then ((201, .created r.user), o.db, o.emails)
      else ((409, .conflict), o.db, o.emails)

/-! ## Helper lemmas -/

/-- `setdefault` never changes a slot whose key is already present. -/
theorem setdefaultStep_keep (top : Option (Option String)) (x : Option String) :
    setdefaultStep (some x) top = some x := by
  cases top with
  | none => rfl
  | some t => cases t with
    | none => rfl
    | some u => rfl

/-- `setdefault` fills an absent slot from a present, non-`None` top-level
value. -/
theorem setdefaultStep_fill (t : String) :
    setdefaultStep none (some (some t)) = some (some t) := rfl

/-- `setdefault` only ever fills: a slot of the merged dict is empty exactly
when it was empty before the merge. -/
theorem setdefaultStep_none {slot top : Option (Option String)}
    (h : setdefaultStep slot top = none) : slot = none := by
  cases top with
  | none => exact h
  | some t =>
    cases t with
    | none => exact h
    | some u =>
      cases slot with
      | none => exact absurd h (by simp [setdefaultStep])
      | some s => exact absurd h (by simp [setdefaultStep])

/-- The nested dict after `normalize_extra` is exactly the `setdefault`-merge
of the nested dict with the legacy top-level fields. -/
theorem rawExtraDict_normalize (v : RawValues) :
    rawExtraDict (normalize_extra v) =
      { mobile := setdefaultStep (rawExtraDict v).mobile v.mobile
        qualification := setdefaultStep (rawExtraDict v).qualification v.qualification
        experience := setdefaultStep (rawExtraDict v).experience v.experience
        city := (rawExtraDict v).city } := by
  simp only [normalize_extra]
  split
  · rfl
  · rename_i h
    simp only [ExtraDict.truthyDict, Bool.or_eq_true, not_or,
      Option.not_isSome_iff_eq_none] at h
    obtain ⟨⟨⟨hm, hq⟩, he⟩, hc⟩ := h
    have hm0 := setdefaultStep_none hm
    have hq0 := setdefaultStep_none hq
    have he0 := setdefaultStep_none he
    simp [hm, hq, he, hc, hm0, hq0, he0]
    cases hd : rawExtraDict v
    simp_all

/-! ## C3 — legacy field merge -/

/-- C3: for every raw payload, `normalize_extra` merges each legacy top-level
optional field (`mobile`, `qualification`, `experience`) into the nested
profile object only when the nested slot is absent: a present nested slot is
never overwritten (the nested value wins), and an absent nested slot is
filled from a present, non-`None` top-level field. -/
theorem c3_legacy_field_merge (v : RawValues) :
    (∀ x, (rawExtraDict v).mobile = some x →
      (rawExtraDict (normalize_extra v)).mobile = some x)
  ∧ (∀ t, (rawExtraDict v).mobile = none → v.mobile = some (some t) →
      (rawExtraDict (normalize_extra v)).mobile = some (some t))
  ∧ (∀ x, (rawExtraDict v).qualification = some x →
      (rawExtraDict (normalize_extra v)).qualification = some x)
  ∧ (∀ t, (rawExtraDict v).qualification = none → v.qualification = some (some t) →
      (rawExtraDict (normalize_extra v)).qualification = some (some t))
  ∧ (∀ x, (rawExtraDict v).experience = some x →
      (rawExtraDict (normalize_extra v)).experience = some x)
  ∧ (∀ t, (rawExtraDict v).experience = none → v.experience = some (some t) →
      (rawExtraDict (normalize_extra v)).experience = some (some t)) := by
  simp only [rawExtraDict_normalize]
  exact ⟨fun x hx => by rw [hx, setdefaultStep_keep],
    fun t h0 ht => by rw [h0, ht]; exact setdefaultStep_fill t,
    fun x hx => by rw [hx, setdefaultStep_keep],
    fun t h0 ht => by rw [h0, ht]; exact setdefaultStep_fill t,
    fun x hx => by rw [hx, setdefaultStep_keep],
    fun t h0 ht => by rw [h0, ht]; exact setdefaultStep_fill t⟩

/-- A payload with both the nested and the top-level `mobile` set. -/
def c3_raw_nested_wins : RawValues :=
  { name := some (some "N"), email := some (some "n@x.com")
    mobile := some (some "9999999999"), qualification := none, experience := none
    extra := some (some ⟨some (some "1112223334"), none, none, none⟩) }

/-- A payload with only the top-level `mobile` set. -/
def c3_raw_top_fills : RawValues :=
  { name := some (some "N"), email := some (some "n@x.com")
    mobile := some (some "9876543210"), qualification := none, experience := none
    extra := none }

/-- Witness for C3 at concrete payloads: the nested value wins over a
conflicting top-level value, and a lone top-level value is copied into the
nested slot. -/
theorem c3_witness :
    (rawExtraDict (normalize_extra c3_raw_nested_wins)).mobile = some (some "1112223334")
  ∧ (rawExtraDict (normalize_extra c3_raw_top_fills)).mobile = some (some "9876543210") :=
  ⟨(c3_legacy_field_merge c3_raw_nested_wins).1 (some "1112223334") rfl,
   (c3_legacy_field_merge c3_raw_top_fills).2.1 "9876543210" rfl rfl⟩

/-! ## C4 — shape of the normalized payload -/

/-- Validation succeeded. -/
def validatedOk (r : Except ValErr Validated) : Bool :=
  match r with
  | .ok _ => true
  | .error _ => false

/-- The top-level `mobile` entry of the normalized dict (`none` on validation
failure). -/
def topMobileOf (r : Except ValErr Validated) : Option String :=
  match r with
  | .ok v => v.mobile
  | .error _ => none

/-- A successfully validated payload retains the legacy top-level fields in
the normalized dict: `.dict()` emits every declared field of
`RegisterSchema`, mirroring the submitted top-level values. -/
theorem validate_ok_top_fields {raw : RawValues} {v : Validated}
    (h : RegisterSchema.validate raw = .ok v) :
    v.mobile = flat raw.mobile
  ∧ v.qualification = flat raw.qualification
  ∧ v.experience = flat raw.experience := by
  have htop : (normalize_extra raw).mobile = raw.mobile
      ∧ (normalize_extra raw).qualification = raw.qualification
      ∧ (normalize_extra raw).experience = raw.experience := by
    simp only [normalize_extra]
    split <;> exact ⟨rfl, rfl, rfl⟩
  simp only [RegisterSchema.validate] at h
  split at h
  · split at h
    · split at h
      · split at h
        · split at h
          · split at h
            · injection h with h
              subst h
              exact ⟨by simp [htop.1], by simp [htop.2.1], by simp [htop.2.2]⟩
            · cases h
          · cases h
        · cases h
      · cases h
    · cases h
  · cases h

/-- The example payload of the spec: `name`, `email`, and a top-level
`mobile`. -/
def c4_raw : RawValues :=
  { name := some (some "Asha Rao"), email := some (some "asha@example.com")
    mobile := some (some "9876543210"), qualification := none, experience := none
    extra := none }

/-- C4 counterexample: this payload passes validation, yet the normalized
payload carries the profile field `mobile` at the top level (in addition to
the nested slot) — refuting that profile fields are exposed exclusively under
the nested shape. -/
theorem c4_counterexample :
    validatedOk (RegisterSchema.validate c4_raw) = true
  ∧ topMobileOf (RegisterSchema.validate c4_raw) = some "9876543210"
  ∧ ¬ topMobileOf (RegisterSchema.validate c4_raw) = none := by
  refine ⟨by decide, by decide, by decide⟩

/-- C4 (amended): the normalized payload handed to the Workflow exposes the
profile fields under the nested shape, but additionally retains them as
top-level fields mirroring the submitted top-level values; the Workflow
ignores the top-level copies — its outcome is unchanged under arbitrary
top-level `mobile` / `qualification` / `experience` values, reading profile
data only from the record and the nested `extra` object. -/
theorem c4_amended_top_level_retained (cfg : AppConfig) (env : StoreEnv)
    (dfail : Bool × Bool) (db : DB) (now : Nat) (raw : RawValues) (v : Validated)
    (h : RegisterSchema.validate raw = .ok v) :
    (v.mobile = flat raw.mobile
      ∧ v.qualification = flat raw.qualification
      ∧ v.experience = flat raw.experience)
  ∧ (∀ m q e, runWorkflow cfg env dfail db now
        { v with mobile := m, qualification := q, experience := e }
      = runWorkflow cfg env dfail db now v) :=
  ⟨validate_ok_top_fields h, fun _ _ _ => rfl⟩

/-- Empty configuration: every config key unset. -/
def cfg0 : AppConfig := ⟨none, none, none, none⟩

/-- Empty store. -/
def db0 : DB := ⟨[], 0⟩

/-- The validated form of `c4_raw`. -/
def c4_v : Validated :=
  { name := "Asha Rao", email := "asha@example.com"
    extra := some ⟨some "9876543210", none, none⟩
    mobile := some "9876543210", qualification := none, experience := none }

/-- Witness for the amended C4 at a concrete payload. -/
theorem c4_witness :
    (c4_v.mobile = flat c4_raw.mobile
      ∧ c4_v.qualification = flat c4_raw.qualification
      ∧ c4_v.experience = flat c4_raw.experience)
  ∧ runWorkflow cfg0 StoreEnv.ok (false, false) db0 0
        { c4_v with mobile := none, qualification := none, experience := none }
      = runWorkflow cfg0 StoreEnv.ok (false, false) db0 0 c4_v :=
  ⟨(c4_amended_top_level_retained cfg0 StoreEnv.ok (false, false) db0 0 c4_raw c4_v
      (by decide)).1,
   (c4_amended_top_level_retained cfg0 StoreEnv.ok (false, false) db0 0 c4_raw c4_v
      (by decide)).2 none none none⟩

/-! ## C1 / C2 — create on fresh email, return existing on duplicate -/

/-- If `find?` misses, `any` is false. -/
theorem any_eq_false_of_find?_eq_none {α : Type} {p : α → Bool} {l : List α}
    (h : l.find? p = none) : l.any p = false := by
  simp only [List.any_eq_false]
  intro x hx
  simp [List.find?_eq_none.mp h x hx]

/-- The row `save_user` constructs for a fresh email
(`register_controller.py` lines 72–78): the payload's name and email, the
nested profile fields flattened into dedicated columns, the `extra` column
left at its `NULL` default, and the system-assigned id and creation time. -/
def newRecord (db : DB) (now : Nat) (v : Validated) : UserRec :=
  let e := v.extra.getD ⟨none, none, none⟩
  { id := db.nextId
    name := v.name
    email := v.email
    mobile := e.mobile
    qualification := e.qualification
    experience := e.experience
    extra := none
    created_at := now }

/-- The `created_new` flag of a completed `process_registration` call
(`none` when an exception escaped). -/
def respCreated (o : ProcOut) : Option Bool :=
  match o.resp with
  | .ok r => some r.created_new
  | .error _ => none

/-- The `user` dict of a completed `process_registration` call. -/
def respUser (o : ProcOut) : Option UserOut :=
  match o.resp with
  | .ok r => some r.user
  | .error _ => none

/-- The flat representation of a stored row, as `process_registration`
returns it. -/
def userOutOf (u : UserRec) : UserOut :=
  ⟨u.id, u.name, u.email, u.mobile, u.qualification, u.experience, u.created_at⟩

/-- `save_user` under the benign environment on a fresh email: the new row is
appended and returned with `created = True`. -/
theorem save_user_fresh {db : DB} {now : Nat} {v : Validated}
    (hnew : db.users.find? (fun u => u.email == v.email) = none) :
    save_user StoreEnv.ok db now v =
      { result := .ok (newRecord db now v, true)
        db := { users := db.users ++ [newRecord db now v], nextId := db.nextId + 1 }
        sessionClosed := true } := by
  simp [save_user, hnew, applyConcurrent, StoreEnv.ok,
    any_eq_false_of_find?_eq_none hnew, newRecord]

/-- `save_user` under the benign environment on a known email: the first
matching row is returned with `created = False` and the table is untouched. -/
theorem save_user_duplicate {db : DB} {now : Nat} {v : Validated} {u0 : UserRec}
    (hfound : db.users.find? (fun u => u.email == v.email) = some u0) :
    save_user StoreEnv.ok db now v =
      { result := .ok (u0, false), db := db, sessionClosed := true } := by
  have hdb : applyConcurrent StoreEnv.ok db = db := by
    cases db
    simp [applyConcurrent, StoreEnv.ok]
  simp [save_user, hfound, hdb]

/-- C1: for every valid payload whose email matches no stored row,
`process_registration` returns `created_new = true` and appends exactly one
new row carrying the payload's name, email and flattened profile fields. -/
theorem c1_fresh_email_creates (cfg : AppConfig) (db : DB) (now : Nat)
    (raw : RawValues) (v : Validated)
    (hv : RegisterSchema.validate raw = .ok v)
    (hnew : db.users.find? (fun u => u.email == v.email) = none) :
    respCreated (process_registration cfg StoreEnv.ok (false, false) db now raw)
      = some true
  ∧ (process_registration cfg StoreEnv.ok (false, false) db now raw).db.users
      = db.users ++ [newRecord db now v] := by
  simp [process_registration, hv, runWorkflow, save_user_fresh hnew, respCreated]

/-- C2: for every valid payload whose email matches a stored row,
`process_registration` persists nothing, mutates nothing, returns the
pre-existing row's fields, and reports `created_new = false`. -/
theorem c2_duplicate_email_returns_existing (cfg : AppConfig) (db : DB) (now : Nat)
    (raw : RawValues) (v : Validated) (u0 : UserRec)
    (hv : RegisterSchema.validate raw = .ok v)
    (hfound : db.users.find? (fun u => u.email == v.email) = some u0) :
    respCreated (process_registration cfg StoreEnv.ok (false, false) db now raw)
      = some false
  ∧ respUser (process_registration cfg StoreEnv.ok (false, false) db now raw)
      = some (userOutOf u0)
  ∧ (process_registration cfg StoreEnv.ok (false, false) db now raw).db = db := by
  simp [process_registration, hv, runWorkflow, save_user_duplicate hfound,
    respCreated, respUser, userOutOf]

/-- A valid payload with a fresh email. -/
def c1_raw : RawValues :=
  { name := some (some "Ravi Kumar"), email := some (some "ravi@example.com")
    mobile := some (some "9000000001"), qualification := some (some "B.Ed")
    experience := none, extra := none }

/-- The validated form of `c1_raw`. -/
def c1_v : Validated :=
  { name := "Ravi Kumar", email := "ravi@example.com"
    extra := some ⟨some "9000000001", some "B.Ed", none⟩
    mobile := some "9000000001", qualification := some "B.Ed", experience := none }

/-- Witness for C1 on the empty store. -/
theorem c1_witness :
    respCreated (process_registration cfg0 StoreEnv.ok (false, false) db0 0 c1_raw)
      = some true
  ∧ (process_registration cfg0 StoreEnv.ok (false, false) db0 0 c1_raw).db.users
      = db0.users ++ [newRecord db0 0 c1_v] :=
  c1_fresh_email_creates cfg0 db0 0 c1_raw c1_v (by decide) rfl

/-- A pre-existing row. -/
def c2_u0 : UserRec :=
  { id := 0, name := "Old Name", email := "dup@example.com"
    mobile := some "0000000000", qualification := none, experience := none
    extra := none, created_at := 3 }

/-- A store already holding `c2_u0`. -/
def c2_db : DB := ⟨[c2_u0], 1⟩

/-- A valid payload re-submitting `c2_u0`'s email with different data. -/
def c2_raw : RawValues :=
  { name := some (some "New Name"), email := some (some "dup@example.com")
    mobile := some (some "1234567890"), qualification := none, experience := none
    extra := none }

/-- The validated form of `c2_raw`. -/
def c2_v : Validated :=
  { name := "New Name", email := "dup@example.com"
    extra := some ⟨some "1234567890", none, none⟩
    mobile := some "1234567890", qualification := none, experience := none }

/-- Witness for C2: the duplicate submission leaves the store unchanged and
returns the old row. -/
theorem c2_witness :
    respCreated (process_registration cfg0 StoreEnv.ok (false, false) c2_db 9 c2_raw)
      = some false
  ∧ respUser (process_registration cfg0 StoreEnv.ok (false, false) c2_db 9 c2_raw)
      = some (userOutOf c2_u0)
  ∧ (process_registration cfg0 StoreEnv.ok (false, false) c2_db 9 c2_raw).db = c2_db :=
  c2_duplicate_email_returns_existing cfg0 c2_db 9 c2_raw c2_v c2_u0
    (by decide) (by decide)

/-! ## C5 — the `extra` column -/

/-- A validated payload whose nested profile dict is non-empty. -/
def c5_v : Validated :=
  { name := "Meera Shah", email := "meera@example.com"
    extra := some ⟨some "9876543210", some "MBA", none⟩
    mobile := some "9876543210", qualification := some "MBA", experience := none }

/-- C5 divergence: on a creating save, `save_user` computes the JSON
serialization of the extra profile dict (`extra_str`), yet the row it
persists carries `extra = NULL` — the `User(...)` constructor call omits the
`extra` column, so nothing is ever retained in the opaque blob. -/
theorem c5_extra_column_never_written :
    extraStrOf c5_v
      = some "\x7b\"mobile\": \"9876543210\", \"qualification\": \"MBA\", \"experience\": null\x7d"
  ∧ (save_user StoreEnv.ok db0 7 c5_v).result = .ok (newRecord db0 7 c5_v, true)
  ∧ (newRecord db0 7 c5_v).extra = none := by
  exact ⟨by decide, by decide, rfl⟩

/-! ## C6 — uniqueness race -/

/-- The concurrent winner's committed row. -/
def c6_w : UserRec :=
  { id := 0, name := "Winner", email := "race@example.com"
    mobile := none, qualification := none, experience := none
    extra := none, created_at := 1 }

/-- The losing session's validated payload, same email as the winner. -/
def c6_p : Validated :=
  { name := "Loser", email := "race@example.com"
    extra := none, mobile := none, qualification := none, experience := none }

/-- C6 counterexample: when a concurrent creation wins the uniqueness race,
`save_user` raises the integrity error — it does not return the winner's row
with `created = false`. -/
theorem c6_counterexample :
    (save_user ⟨some c6_w, false⟩ db0 2 c6_p).result = .error .integrityError
  ∧ ¬ (save_user ⟨some c6_w, false⟩ db0 2 c6_p).result = .ok (c6_w, false) :=
  ⟨by decide, by decide⟩

/-- C6 (amended): when the insert of a new row fails because a concurrent
creation won the email uniqueness race, `save_user` rolls back its own
insert (only the winner's row remains), releases the session, and propagates
the integrity error to the caller — the bare `except Exception` re-raises the
storage fault rather than mapping it to `(winner, created=false)`. -/
theorem c6_amended_race_raises (db : DB) (now : Nat) (p : Validated) (w : UserRec)
    (hnone : db.users.find? (fun u => u.email == p.email) = none)
    (hw : w.email = p.email) :
    (save_user ⟨some w, false⟩ db now p).result = .error .integrityError
  ∧ (save_user ⟨some w, false⟩ db now p).db.users = db.users ++ [w]
  ∧ (save_user ⟨some w, false⟩ db now p).sessionClosed = true := by
  simp [save_user, hnone, applyConcurrent, List.any_append, hw]

/-- Witness for the amended C6: a concrete lost race on the empty store. -/
theorem c6_witness :
    (save_user ⟨some c6_w, false⟩ db0 2 c6_p).result = .error .integrityError
  ∧ (save_user ⟨some c6_w, false⟩ db0 2 c6_p).db.users = db0.users ++ [c6_w]
  ∧ (save_user ⟨some c6_w, false⟩ db0 2 c6_p).sessionClosed = true :=
  c6_amended_race_raises db0 2 c6_p c6_w rfl rfl

/-! ## C7 — storage errors: rollback, surfacing, session release -/

/-- C7: on every path through `save_user` the scoped session is released; if
an error is raised, this session's writes are rolled back (the table holds
exactly the rows others committed) and the error is surfaced to the caller —
in particular a commit fault on a fresh email surfaces as the storage
fault. -/
theorem c7_storage_error_contract (env : StoreEnv) (db : DB) (now : Nat)
    (p : Validated) :
    (save_user env db now p).sessionClosed = true
  ∧ (∀ e, (save_user env db now p).result = .error e →
      (save_user env db now p).db = applyConcurrent env db)
  ∧ (env.commitFault = true →
      db.users.find? (fun u => u.email == p.email) = none →
      (save_user env db now p).result = .error .storageFault) := by
  cases hfind : db.users.find? (fun u => u.email == p.email) with
  | some u =>
    refine ⟨by simp [save_user, hfind], ?_, ?_⟩
    · intro e he
      simp [save_user, hfind] at he
    · intro _ hnone
      simp [hfind] at hnone
  | none =>
    cases hcf : env.commitFault with
    | true =>
      exact ⟨by simp [save_user, hfind, hcf],
        fun e _ => by simp [save_user, hfind, hcf],
        fun _ _ => by simp [save_user, hfind, hcf]⟩
    | false =>
      by_cases hany :
          ((applyConcurrent env db).users.any (fun u => u.email == p.email)) = true
      · refine ⟨by simp [save_user, hfind, hcf, hany],
          fun e _ => by simp [save_user, hfind, hcf, hany], ?_⟩
        intro hcf2 _
        cases hcf2
      · rw [Bool.not_eq_true] at hany
        refine ⟨by simp [save_user, hfind, hcf, hany], ?_, ?_⟩
        · intro e he
          simp [save_user, hfind, hcf, hany] at he
        · intro hcf2 _
          cases hcf2

/-- A validated payload for the commit-fault scenario. -/
def c7_p : Validated :=
  { name := "Kiran", email := "kiran@example.com"
    extra := none, mobile := none, qualification := none, experience := none }

/-- Witness for C7: a commit fault on the empty store is surfaced, rolled
back, and the session is released. -/
theorem c7_witness :
    (save_user ⟨none, true⟩ db0 4 c7_p).sessionClosed = true
  ∧ (save_user ⟨none, true⟩ db0 4 c7_p).db = applyConcurrent ⟨none, true⟩ db0
  ∧ (save_user ⟨none, true⟩ db0 4 c7_p).result = .error .storageFault :=
  ⟨(c7_storage_error_contract ⟨none, true⟩ db0 4 c7_p).1,
   (c7_storage_error_contract ⟨none, true⟩ db0 4 c7_p).2.1 .storageFault
     ((c7_storage_error_contract ⟨none, true⟩ db0 4 c7_p).2.2 rfl rfl),
   (c7_storage_error_contract ⟨none, true⟩ db0 4 c7_p).2.2 rfl rfl⟩

/-! ## C8 — dispatch failures are swallowed -/

/-- C8: injected failures of the notification enqueue calls (first, second,
or both) change neither the value `process_registration` returns nor the
resulting table state — the `except` around the two `send_email_async` calls
only logs, so no dispatch failure propagates to the caller. -/
theorem c8_dispatch_failures_inert (cfg : AppConfig) (env : StoreEnv) (db : DB)
    (now : Nat) (raw : RawValues) (f1 f2 : Bool) :
    (process_registration cfg env (f1, f2) db now raw).resp
      = (process_registration cfg env (false, false) db now raw).resp
  ∧ (process_registration cfg env (f1, f2) db now raw).db
      = (process_registration cfg env (false, false) db now raw).db := by
  cases hval : RegisterSchema.validate raw with
  | error e => simp [process_registration, hval]
  | ok v =>
    cases hres : (save_user env db now v).result with
    | error e2 => simp [process_registration, runWorkflow, hval, hres]
    | ok ub =>
      obtain ⟨user, created⟩ := ub
      simp [process_registration, runWorkflow, hval, hres]

/-! ## C9 — contextual HTML escaping -/

/-- `html.escape` of a single character never yields a raw `<`. -/
theorem count_escapeChar_lt (c : Char) : (escapeChar c).data.count '<' = 0 := by
  unfold escapeChar
  split_ifs with h1 h2 h3 h4 h5
  · decide
  · decide
  · decide
  · decide
  · decide
  · have hb : ('<' == c) = false := beq_eq_false_iff_ne.mpr (fun hh => h2 hh.symm)
    simp [List.count_cons, hb]
    exact h2

/-- `html.escape` of a single character never yields a raw `>`. -/
theorem count_escapeChar_gt (c : Char) : (escapeChar c).data.count '>' = 0 := by
  unfold escapeChar
  split_ifs with h1 h2 h3 h4 h5
  · decide
  · decide
  · decide
  · decide
  · decide
  · have hb : ('>' == c) = false := beq_eq_false_iff_ne.mpr (fun hh => h3 hh.symm)
    simp [List.count_cons, hb]
    exact h3

/-- A character-wise escape of a list yields no occurrence of a character
that no single escape emits. -/
theorem count_flatMap_escape (c : Char) (l : List Char)
    (hc : ∀ a, (escapeChar a).data.count c = 0) :
    (l.flatMap (fun a => (escapeChar a).data)).count c = 0 := by
  induction l with
  | nil => rfl
  | cons a l ih => simp [List.count_append, hc, ih]

/-- `html.escape` emits no raw `<`. -/
theorem count_htmlEscape_lt (s : String) : (htmlEscape s).data.count '<' = 0 :=
  count_flatMap_escape '<' s.data count_escapeChar_lt

/-- `html.escape` emits no raw `>`. -/
theorem count_htmlEscape_gt (s : String) : (htmlEscape s).data.count '>' = 0 :=
  count_flatMap_escape '>' s.data count_escapeChar_gt

/-- C9: every record field substituted into the submitter-facing and the
admin-facing HTML bodies passes through `esc` (`html.escape`), so the number
of raw angle brackets in each rendered body equals that of the fixed template
— field values cannot contribute live markup — and a name containing
`<script>` renders with its angle brackets escaped. -/
theorem c9_contextual_escaping (n e : String) (m c : Option String) :
    (user_html n).data.count '<' = (user_html "").data.count '<'
  ∧ (user_html n).data.count '>' = (user_html "").data.count '>'
  ∧ (admin_html n m e c).data.count '<' = (admin_html "" none "" none).data.count '<'
  ∧ (admin_html n m e c).data.count '>' = (admin_html "" none "" none).data.count '>'
  ∧ htmlEscape "<script>" = "&lt;script&gt;" := by
  refine ⟨?_, ?_, ?_, ?_, by decide⟩ <;>
    simp [user_html, admin_html, esc, List.count_append,
      count_htmlEscape_lt, count_htmlEscape_gt]

/-! ## C10 — duplicate submissions still notify -/

/-- C10: on a valid payload whose email matches an existing row, the route
answers with the 409 duplicate-conflict signal, yet both notifications are
still scheduled — the submitter confirmation to the stored record's email and
the admin alert to the configured (or default) admin address. -/
theorem c10_duplicate_still_notifies (cfg : AppConfig) (db : DB) (now : Nat)
    (raw : RawValues) (v : Validated) (u0 : UserRec)
    (hv : RegisterSchema.validate raw = .ok v)
    (hfound : db.users.find? (fun u => u.email == v.email) = some u0) :
    (register cfg StoreEnv.ok (false, false) db now (some raw)).1
      = (409, RouteResp.conflict)
  ∧ ((register cfg StoreEnv.ok (false, false) db now (some raw)).2.2.map
        (fun msg => (msg.subject, msg.recipients)))
      = [(user_subject, [u0.email]),
         (admin_subject, [pyOrD cfg.ADMIN_EMAIL "connect@globalmindsindia.com"])] := by
  simp [register, process_registration, hv, runWorkflow, save_user_duplicate hfound,
    send_email_async]

/-- Witness for C10: re-submitting `c2_u0`'s email on the populated store
yields the conflict signal and still schedules both messages. -/
theorem c10_witness :
    (register cfg0 StoreEnv.ok (false, false) c2_db 9 (some c2_raw)).1
      = (409, RouteResp.conflict)
  ∧ ((register cfg0 StoreEnv.ok (false, false) c2_db 9 (some c2_raw)).2.2.map
        (fun msg => (msg.subject, msg.recipients)))
      = [(user_subject, [c2_u0.email]),
         (admin_subject, [pyOrD cfg0.ADMIN_EMAIL "connect@globalmindsindia.com"])] :=
  c10_duplicate_still_notifies cfg0 c2_db 9 c2_raw c2_v c2_u0 (by decide) (by decide)

end GepServer
